import Mathlib

/-!
Verification development for the FTL SDK public interface.

The repository consists of a single C header, src/libftl/ftl.h, which fixes
the status-code and codec enumerations, the opaque handle types, and the exact
signature of every caller-facing operation.  The enumerations and the
declaration surface below are translated directly from that header.  Behaviour
that the header only documents (the stream lifecycle state machine and the
payload-type/SSRC default policies) has no implementation in the repository;
those parts are modelled from the specification and are marked as such.
-/

/-- Status codes used by libftl, ftl_status_t (ftl.h lines 36 to 46). -/
inductive ftl_status_t
  | FTL_SUCCESS
  | FTL_NON_ZERO_POINTER
  | FTL_MALLOC_FAILURE
  | FTL_DNS_FAILURE
  | FTL_CONNECT_ERROR
  | FTL_INTERNAL_ERROR
  | FTL_CONFIG_ERROR
  | FTL_STREAM_REJECTED
  | FTL_NOT_ACTIVE_STREAM
deriving DecidableEq

/-- Names of the ftl_status_t enumerators, in source order (ftl.h lines 36 to 46). -/
def statusNames : List String :=
  ["FTL_SUCCESS", "FTL_NON_ZERO_POINTER", "FTL_MALLOC_FAILURE", "FTL_DNS_FAILURE",
   "FTL_CONNECT_ERROR", "FTL_INTERNAL_ERROR", "FTL_CONFIG_ERROR", "FTL_STREAM_REJECTED",
   "FTL_NOT_ACTIVE_STREAM"]

/-- Video codecs supported by FTL, ftl_video_codec_t (ftl.h lines 52 to 55). -/
inductive ftl_video_codec_t
  | FTL_VIDEO_NULL
  | FTL_VIDEO_VP8
deriving DecidableEq

/-- Audio codecs supported by FTL, ftl_audio_codec_t (ftl.h lines 61 to 64). -/
inductive ftl_audio_codec_t
  | FTL_AUDIO_NULL
  | FTL_AUDIO_OPUS
deriving DecidableEq

/-- C types that occur in the declarations of ftl.h.  The three struct types are
opaque handles (their only member is a hidden pointer). -/
inductive CTy
  | void
  | status
  | videoCodec
  | audioCodec
  | uint8
  | uint32
  | uint64
  | constCharPtr
  | streamConfigPtr
  | streamConfigPtrPtr
  | audioComponentPtr
  | videoComponentPtr
deriving DecidableEq

/-- A C function declaration: name, parameter types in order, return type. -/
structure CFun where
  name : String
  params : List CTy
  ret : CTy
deriving DecidableEq

/-- The complete caller-facing declaration surface of ftl.h, in source order
(ftl.h lines 107, 122, 134, 147, 163, 181, 194, 209, 221, 230). -/
def apiDecls : List CFun :=
  [⟨"ftl_init", [], CTy.status⟩,
   ⟨"ftl_create_stream", [CTy.streamConfigPtrPtr], CTy.status⟩,
   ⟨"ftl_set_ingest_location", [CTy.streamConfigPtr, CTy.constCharPtr], CTy.void⟩,
   ⟨"ftl_set_authetication_key", [CTy.streamConfigPtr, CTy.uint64, CTy.constCharPtr], CTy.void⟩,
   ⟨"ftl_create_audio_component", [CTy.videoCodec, CTy.uint8, CTy.uint32], CTy.audioComponentPtr⟩,
   ⟨"ftl_create_video_component", [CTy.videoCodec, CTy.uint8, CTy.uint32, CTy.uint32, CTy.uint32],
     CTy.videoComponentPtr⟩,
   ⟨"ftl_attach_video_component_to_stream", [CTy.streamConfigPtr, CTy.videoComponentPtr], CTy.void⟩,
   ⟨"ftl_activate_stream", [CTy.streamConfigPtr], CTy.status⟩,
   ⟨"ftl_deactivate_stream", [CTy.streamConfigPtr], CTy.status⟩,
   ⟨"ftl_destory_stream", [CTy.streamConfigPtrPtr], CTy.void⟩]

/-- Modelled from the spec: lifecycle states of a Stream Configuration.  The
implementation behind the opaque ftl_stream_configuration_t handle is not part
of the repository; the spec state machine is Uninitialized, Configured, Active,
Inactive, Destroyed, where Uninitialized and Destroyed are exactly the states
in which the caller holds no allocated configuration, so they are represented
below by the absence of a configuration (an Option set to none). -/
inductive StreamState
  | Configured
  | Active
  | Inactive
deriving DecidableEq

/-- Modelled from the spec: a video Component Descriptor (codec kind, RTP payload
type, SSRC, frame dimensions); the struct behind the opaque
ftl_stream_video_component_t handle is not part of the repository. -/
structure VideoComponent where
  codec : ftl_video_codec_t
  payload_type : Nat
  ssrc : Nat
  width : Nat
  height : Nat
deriving DecidableEq

/-- Modelled from the spec: an audio Component Descriptor, described by an audio
codec kind, a payload type and an SSRC; the struct behind the opaque
ftl_stream_audio_component_t handle is not part of the repository. -/
structure AudioComponent where
  codec : ftl_audio_codec_t
  payload_type : Nat
  ssrc : Nat
deriving DecidableEq

/-- Modelled from the spec: the mutable state of a Stream Configuration (ingest
target, credentials, at most one component of each kind, lifecycle state); the
struct behind the opaque ftl_stream_configuration_t handle is not part of the
repository. -/
structure StreamConfig where
  ingest_location : Option String
  channel_id : Option Nat
  auth_key : Option String
  audio : Option AudioComponent
  video : Option VideoComponent
  state : StreamState
deriving DecidableEq

/-- Modelled from the spec: the Stream Configuration freshly allocated by
ftl_create_stream, in Configured state with nothing set and no components. -/
def initial_stream_config : StreamConfig :=
  ⟨none, none, none, none, none, StreamState.Configured⟩

/-- Modelled from the spec: ftl_create_stream (declared ftl.h line 122; the
implementation is not part of the repository).  The output slot the caller
passes must be zeroed: a non-zeroed slot yields FTL_NON_ZERO_POINTER and the
call allocates nothing, leaving the slot as it was; a zeroed slot receives a
newly allocated configuration in Configured state and the call returns
FTL_SUCCESS. -/
def ftl_create_stream (slot : Option StreamConfig) : ftl_status_t × Option StreamConfig :=
  match slot with
  | some c => (ftl_status_t.FTL_NON_ZERO_POINTER, some c)
  | none => (ftl_status_t.FTL_SUCCESS, some initial_stream_config)

/-- Modelled from the spec: ftl_attach_video_component_to_stream (declared
ftl.h line 194; the implementation is not part of the repository).  Attachment
is valid only before activation and only when no video component is attached
yet; otherwise the attach is rejected and the configuration is left unchanged.
The declared C function returns void, so the rejection is not reported through
a status code. -/
def ftl_attach_video_component_to_stream (cfg : StreamConfig) (comp : VideoComponent) :
    StreamConfig :=
  if cfg.video ≠ none ∨ cfg.state = StreamState.Active then cfg
  else { cfg with video := some comp }

/-- Modelled from the spec: the outcome the blocking handshake observes from the
environment (DNS resolution, transport connect, authentication exchange and the
remote accept/reject decision are network effects outside the library). -/
inductive HandshakeOutcome
  | DnsFail
  | ConnectFail
  | InternalFail
  | Rejected
  | Accepted
deriving DecidableEq

/-- Modelled from the spec: ftl_activate_stream (declared ftl.h line 209; the
implementation is not part of the repository).  Activation is valid only from
Configured or Inactive; the required fields (ingest location and
authentication key) are checked before any handshake step, and a missing field
yields FTL_CONFIG_ERROR with the configuration unchanged.  Otherwise the
handshake outcome decides the status; only acceptance transitions to Active.
The spec does not name the status returned when activate is called on an
already Active configuration; the model reports an internal error and leaves
the configuration unchanged on that branch, which no claim depends on. -/
def ftl_activate_stream (env : HandshakeOutcome) (cfg : StreamConfig) :
    ftl_status_t × StreamConfig :=
  if cfg.state = StreamState.Active then (ftl_status_t.FTL_INTERNAL_ERROR, cfg)
  else if cfg.ingest_location = none ∨ cfg.auth_key = none then
    (ftl_status_t.FTL_CONFIG_ERROR, cfg)
  else
    match env with
    | HandshakeOutcome.DnsFail => (ftl_status_t.FTL_DNS_FAILURE, cfg)
    | HandshakeOutcome.ConnectFail => (ftl_status_t.FTL_CONNECT_ERROR, cfg)
    | HandshakeOutcome.InternalFail => (ftl_status_t.FTL_INTERNAL_ERROR, cfg)
    | HandshakeOutcome.Rejected => (ftl_status_t.FTL_STREAM_REJECTED, cfg)
    | HandshakeOutcome.Accepted => (ftl_status_t.FTL_SUCCESS, { cfg with state := StreamState.Active })

/-- Modelled from the spec: ftl_deactivate_stream (declared ftl.h line 221; the
implementation is not part of the repository).  Deactivation is valid only
from Active, in which case the stream transitions to Inactive; on a
configuration that is not Active it returns FTL_NOT_ACTIVE_STREAM and changes
nothing. -/
def ftl_deactivate_stream (cfg : StreamConfig) : ftl_status_t × StreamConfig :=
  if cfg.state = StreamState.Active then
    (ftl_status_t.FTL_SUCCESS, { cfg with state := StreamState.Inactive })
  else (ftl_status_t.FTL_NOT_ACTIVE_STREAM, cfg)

/-- Modelled from the spec: the observable resource actions of destroying a
Stream Configuration, used to state that destroy deactivates an Active stream
and releases every owned Component Descriptor exactly once. -/
inductive DestroyAction
  | Deactivated
  | ReleasedAudio (c : AudioComponent)
  | ReleasedVideo (c : VideoComponent)
  | FreedConfiguration
deriving DecidableEq

/-- Modelled from the spec: ftl_destory_stream (name as declared, ftl.h line
230; the implementation is not part of the repository).  The caller passes its
handle slot in-out: if a configuration is present it is deactivated first when
Active, its owned Component Descriptors and then the configuration itself are
released, and a cleared handle (none) is written back; if the slot is already
cleared, the call is a detectable no-op that releases nothing. -/
def ftl_destory_stream (slot : Option StreamConfig) :
    Option StreamConfig × List DestroyAction :=
  match slot with
  | none => (none, [])
  | some cfg =>
      let step :=
        if cfg.state = StreamState.Active then
          ([DestroyAction.Deactivated], (ftl_deactivate_stream cfg).2)
        else ([], cfg)
      let relA :=
        match step.2.audio with
        | some a => [DestroyAction.ReleasedAudio a]
        | none => []
      let relV :=
        match step.2.video with
        | some v => [DestroyAction.ReleasedVideo v]
        | none => []
      (none, step.1 ++ relA ++ relV ++ [DestroyAction.FreedConfiguration])

/-- Modelled from the spec: the default policy for an unset payload type.  A
payload type of zero is the unset sentinel and is replaced by the
protocol-standard default for the codec kind; the spec fixes the policy as a
pure per-kind table without naming the numbers, so the table is a parameter. -/
def resolve_payload_type {κ : Type} (defaults : κ → Nat) (codec : κ) (payload_type : Nat) : Nat :=
  if payload_type = 0 then defaults codec else payload_type

/-- Modelled from the spec: the generation policy for an unset SSRC.  An SSRC of
zero is the unset sentinel; the generator draws 32-bit values from the random
stream until one is nonzero and does not collide with the SSRC of any other
component of the same session. -/
def resolve_ssrc (randoms : List Nat) (used : List Nat) (ssrc : Nat) : Option Nat :=
  if ssrc ≠ 0 then some ssrc
  else (randoms.map (fun r => r % 2 ^ 32)).find? (fun s => decide (s ≠ 0 ∧ s ∉ used))

/-- Concrete Active configuration owning one audio and one video component,
used to exercise the destroy path on the richest state. -/
def sample_active_config : StreamConfig :=
  ⟨some "ingest.example.com", some 42, some "secret",
    some ⟨ftl_audio_codec_t.FTL_AUDIO_OPUS, 97, 77⟩,
    some ⟨ftl_video_codec_t.FTL_VIDEO_VP8, 96, 88, 1280, 720⟩,
    StreamState.Active⟩

/-- Helper: an element returned by List.find? satisfies the predicate and
belongs to the list. -/
theorem find?_spec {α : Type} {p : α → Bool} {l : List α} {a : α}
    (h : l.find? p = some a) : p a = true ∧ a ∈ l := by
  induction l with
  | nil => simp at h
  | cons x xs ih =>
    by_cases hx : p x = true
    · rw [List.find?_cons_of_pos _ hx] at h
      cases h
      exact ⟨hx, List.mem_cons_self _ _⟩
    · rw [List.find?_cons_of_neg _ hx] at h
      obtain ⟨hpa, hmem⟩ := ih h
      exact ⟨hpa, List.mem_cons_of_mem _ hmem⟩

/-- Claim C1, counterexample: the claim that attaching a second video component
fails with an InvalidState status error is false against the header.  The
declared ftl_attach_video_component_to_stream returns void, not ftl_status_t,
so no call to it can report any status, and the status enumeration has no
InvalidState member at all. -/
theorem C1_attach_has_no_status_channel :
    (apiDecls.find? (fun d => d.name == "ftl_attach_video_component_to_stream")).map CFun.ret
      = some CTy.void ∧
    "FTL_INVALID_STATE" ∉ statusNames ∧
    CTy.void ≠ CTy.status := by
  decide

/-- Claim C1, amended: attaching a second video component to a configuration
that already has one is rejected without any observable effect: the
configuration, and in particular the already attached first component, is left
unchanged (the declared operation returns void, so the rejection is silent
rather than an InvalidState status). -/
theorem C1_second_video_attach_rejected (cfg : StreamConfig) (c1 c2 : VideoComponent)
    (h : cfg.video = some c1) :
    ftl_attach_video_component_to_stream cfg c2 = cfg ∧
    (ftl_attach_video_component_to_stream cfg c2).video = some c1 := by
  have he : ftl_attach_video_component_to_stream cfg c2 = cfg := by
    unfold ftl_attach_video_component_to_stream
    rw [if_pos (Or.inl (by simp [h]))]
  exact ⟨he, by rw [he]; exact h⟩

/-- Claim C1, witness: a concrete configuration holding one video component is
returned unchanged by a second attach. -/
theorem C1_second_video_attach_rejected_witness :
    ftl_attach_video_component_to_stream
        ⟨none, none, none, none,
          some ⟨ftl_video_codec_t.FTL_VIDEO_VP8, 96, 1, 1280, 720⟩, StreamState.Configured⟩
        ⟨ftl_video_codec_t.FTL_VIDEO_VP8, 97, 2, 640, 480⟩
      = ⟨none, none, none, none,
          some ⟨ftl_video_codec_t.FTL_VIDEO_VP8, 96, 1, 1280, 720⟩, StreamState.Configured⟩ :=
  (C1_second_video_attach_rejected _ _ _ rfl).1

/-- Claim C2: the caller-facing surface has no audio attach operation.  The
only declaration that mentions the audio component handle type at all is
ftl_create_audio_component, and no declaration takes both a stream
configuration and an audio component; the claimed operation symmetric to
ftl_attach_video_component_to_stream does not exist in the header. -/
theorem C2_no_audio_attach_in_surface :
    (apiDecls.filter (fun d =>
        d.params.contains CTy.audioComponentPtr || d.ret == CTy.audioComponentPtr)).map CFun.name
      = ["ftl_create_audio_component"] ∧
    apiDecls.all (fun d =>
        !(d.params.contains CTy.streamConfigPtr && d.params.contains CTy.audioComponentPtr))
      = true := by
  decide

/-- Claim C3: the codec parameter of ftl_create_audio_component is typed with
the video codec enumeration ftl_video_codec_t, not with ftl_audio_codec_t, and
the audio codec enumeration is used by no declared operation at all; the two
enumerations are distinct types. -/
theorem C3_audio_creation_codec_is_video_typed :
    (apiDecls.find? (fun d => d.name == "ftl_create_audio_component")).map CFun.params
      = some [CTy.videoCodec, CTy.uint8, CTy.uint32] ∧
    apiDecls.all (fun d => !(d.params.contains CTy.audioCodec || d.ret == CTy.audioCodec))
      = true ∧
    CTy.videoCodec ≠ CTy.audioCodec := by
  decide

/-- Claim C4: ftl_create_stream on a non-zeroed output slot fails with
FTL_NON_ZERO_POINTER and allocates nothing, leaving the slot exactly as it
was; on a zeroed slot it returns FTL_SUCCESS together with a newly allocated
configuration in the Configured state with no components attached. -/
theorem C4_create_stream_slot_check (c : StreamConfig) :
    ftl_create_stream (some c) = (ftl_status_t.FTL_NON_ZERO_POINTER, some c) ∧
    ftl_create_stream none = (ftl_status_t.FTL_SUCCESS, some initial_stream_config) ∧
    initial_stream_config.state = StreamState.Configured ∧
    initial_stream_config.audio = none ∧
    initial_stream_config.video = none :=
  ⟨rfl, rfl, rfl, rfl, rfl⟩

/-- Claim C5: destroying a stream configuration always writes a cleared handle
back, deactivates first when the stream is Active, releases every owned
Component Descriptor and the configuration itself, and a second destroy on the
now-cleared handle is a well-defined no-op that releases nothing. -/
theorem C5_destroy_clears_and_releases (slot : Option StreamConfig) (cfg : StreamConfig)
    (h : slot = some cfg) :
    (ftl_destory_stream slot).1 = none ∧
    ftl_destory_stream (ftl_destory_stream slot).1 = (none, []) ∧
    (cfg.state = StreamState.Active →
      DestroyAction.Deactivated ∈ (ftl_destory_stream slot).2) ∧
    (∀ a, cfg.audio = some a →
      DestroyAction.ReleasedAudio a ∈ (ftl_destory_stream slot).2) ∧
    (∀ v, cfg.video = some v →
      DestroyAction.ReleasedVideo v ∈ (ftl_destory_stream slot).2) ∧
    DestroyAction.FreedConfiguration ∈ (ftl_destory_stream slot).2 := by
  subst h
  rcases cfg with ⟨loc, cid, key, au, vi, st⟩
  by_cases hA : st = StreamState.Active <;>
    cases au <;> cases vi <;>
      simp_all [ftl_destory_stream, ftl_deactivate_stream]

/-- Claim C5, witness: destroying a concrete Active configuration owning one
audio and one video component clears the handle, deactivates, and releases
both components. -/
theorem C5_destroy_clears_and_releases_witness :
    (ftl_destory_stream (some sample_active_config)).1 = none ∧
    DestroyAction.Deactivated ∈ (ftl_destory_stream (some sample_active_config)).2 ∧
    DestroyAction.ReleasedAudio ⟨ftl_audio_codec_t.FTL_AUDIO_OPUS, 97, 77⟩
      ∈ (ftl_destory_stream (some sample_active_config)).2 ∧
    DestroyAction.ReleasedVideo ⟨ftl_video_codec_t.FTL_VIDEO_VP8, 96, 88, 1280, 720⟩
      ∈ (ftl_destory_stream (some sample_active_config)).2 := by
  have h := C5_destroy_clears_and_releases (some sample_active_config) sample_active_config rfl
  exact ⟨h.1, h.2.2.1 rfl, h.2.2.2.1 _ rfl, h.2.2.2.2.1 _ rfl⟩

/-- Claim C6: on a Configured stream configuration whose ingest location is
unset, ftl_activate_stream fails with FTL_CONFIG_ERROR whatever the network
environment would have answered, and the configuration is returned unchanged,
still in the Configured state. -/
theorem C6_activate_unset_ingest (cfg : StreamConfig) (env : HandshakeOutcome)
    (hstate : cfg.state = StreamState.Configured) (hloc : cfg.ingest_location = none) :
    ftl_activate_stream env cfg = (ftl_status_t.FTL_CONFIG_ERROR, cfg) ∧
    (ftl_activate_stream env cfg).2.state = StreamState.Configured := by
  have he : ftl_activate_stream env cfg = (ftl_status_t.FTL_CONFIG_ERROR, cfg) := by
    unfold ftl_activate_stream
    rw [if_neg (by simp [hstate]), if_pos (Or.inl hloc)]
  exact ⟨he, by rw [he]; exact hstate⟩

/-- Claim C6, witness: a concrete Configured configuration with no ingest
location set fails with FTL_CONFIG_ERROR even when the environment would have
accepted the handshake. -/
theorem C6_activate_unset_ingest_witness :
    ftl_activate_stream HandshakeOutcome.Accepted
        ⟨none, some 42, some "secret", none, none, StreamState.Configured⟩
      = (ftl_status_t.FTL_CONFIG_ERROR,
          ⟨none, some 42, some "secret", none, none, StreamState.Configured⟩) :=
  (C6_activate_unset_ingest _ _ rfl rfl).1

/-- Claim C7: ftl_deactivate_stream on a configuration that is not Active (for
example one already transitioned to Inactive) returns FTL_NOT_ACTIVE_STREAM
and returns the configuration completely unchanged, so nothing is freed or
corrupted. -/
theorem C7_deactivate_not_active (cfg : StreamConfig)
    (h : cfg.state ≠ StreamState.Active) :
    ftl_deactivate_stream cfg = (ftl_status_t.FTL_NOT_ACTIVE_STREAM, cfg) := by
  unfold ftl_deactivate_stream
  rw [if_neg h]

/-- Claim C7, witness: deactivating a concrete configuration already in the
Inactive state reports FTL_NOT_ACTIVE_STREAM and leaves it unchanged. -/
theorem C7_deactivate_not_active_witness :
    ftl_deactivate_stream ⟨some "ingest.example.com", some 42, some "secret",
        none, none, StreamState.Inactive⟩
      = (ftl_status_t.FTL_NOT_ACTIVE_STREAM,
          ⟨some "ingest.example.com", some 42, some "secret",
            none, none, StreamState.Inactive⟩) :=
  C7_deactivate_not_active _ (by decide)

/-- Claim C8: a component created with the unset sentinel (zero) payload type
receives the default for its codec kind, a pure function of the kind, hence
deterministically the same for equal kinds, while a set payload type is kept;
and whenever the SSRC generator answers for an unset SSRC, the generated value
is a nonzero 32-bit value distinct from the SSRC of every other component of
the session. -/
theorem C8_default_payload_and_ssrc (κ : Type) (defaults : κ → Nat) (codec : κ)
    (randoms used : List Nat) (s : Nat)
    (h : resolve_ssrc randoms used 0 = some s) :
    resolve_payload_type defaults codec 0 = defaults codec ∧
    (∀ pt, pt ≠ 0 → resolve_payload_type defaults codec pt = pt) ∧
    s ≠ 0 ∧ s ∉ used ∧ s < 2 ^ 32 := by
  have hf : (randoms.map (fun r => r % 2 ^ 32)).find?
      (fun s => decide (s ≠ 0 ∧ s ∉ used)) = some s := by
    simpa [resolve_ssrc] using h
  obtain ⟨hp1, hm⟩ := find?_spec hf
  have hp := of_decide_eq_true hp1
  obtain ⟨r, -, rfl⟩ := List.mem_map.mp hm
  exact ⟨rfl, fun pt hpt => if_neg hpt, hp.1, hp.2, Nat.mod_lt r (by norm_num)⟩

/-- Claim C8, witness: with random draws 0, 5, 7 and the SSRC 5 already used in
the session, the generator skips the zero and the colliding draw and yields 7,
which is nonzero, fresh, and a 32-bit value; the default payload policy yields
the table entry for the codec kind. -/
theorem C8_default_payload_and_ssrc_witness :
    resolve_payload_type (fun _ : ftl_audio_codec_t => 97) ftl_audio_codec_t.FTL_AUDIO_OPUS 0
      = 97 ∧
    (7 : Nat) ≠ 0 ∧ (7 : Nat) ∉ [5] ∧ (7 : Nat) < 2 ^ 32 := by
  have h := C8_default_payload_and_ssrc ftl_audio_codec_t (fun _ => 97)
      ftl_audio_codec_t.FTL_AUDIO_OPUS [0, 5, 7] [5] 7 (by decide)
  exact ⟨h.1, h.2.2⟩

/-- Claim C10: the two component-creation operations return raw pointers to the
component handle types and expose no status-code channel: their return types
are not ftl_status_t and none of their parameters could carry a status out,
all being plain value parameters, so an allocation failure can only surface as
a null return, never as FTL_MALLOC_FAILURE. -/
theorem C10_component_creation_pointer_only :
    (apiDecls.filter (fun d =>
        d.name == "ftl_create_audio_component"
          || d.name == "ftl_create_video_component")).map CFun.ret
      = [CTy.audioComponentPtr, CTy.videoComponentPtr] ∧
    (apiDecls.filter (fun d =>
        d.name == "ftl_create_audio_component"
          || d.name == "ftl_create_video_component")).map CFun.params
      = [[CTy.videoCodec, CTy.uint8, CTy.uint32],
         [CTy.videoCodec, CTy.uint8, CTy.uint32, CTy.uint32, CTy.uint32]] ∧
    CTy.audioComponentPtr ≠ CTy.status ∧ CTy.videoComponentPtr ≠ CTy.status := by
  decide
